import Mathlib

set_option autoImplicit false

/-!
Shallow embedding of the error-response normalisation code of the
django-rest-utils repository: `views/view.py` (`DjangoViewAPIMixin`, namespace
`View` below) and `views/api.py` (`DjangoAPIMixin`, namespace `Api` below),
together with the small pieces of their externals that the code relies on
(`rest_framework.status` range predicates and `exceptions.HumanReadableError`).

Python dictionaries are embedded as association lists over string keys; Python
exceptions are an explicit `Except` channel, with `try`/`except` blocks
translated to `match` on the result of the body.  A separate heap-based model
(`ViewHeap`) captures the object-identity/aliasing behaviour of the shared
class attribute `error_dict`.
-/

/-- Python values that can flow through the error-response code: `None`,
booleans, integers, strings, lists and string-keyed dictionaries. -/
inductive PyVal : Type where
  | none : PyVal
  | bool : Bool → PyVal
  | int : Int → PyVal
  | str : String → PyVal
  | list : List PyVal → PyVal
  | dict : List (String × PyVal) → PyVal

/-- Exceptions: `HumanReadableError` (from `exceptions.py`, a subclass of
`Exception` carrying one message argument) and every other exception kind,
abstracted as `otherError` carrying its `str()`. -/
inductive PyExc : Type where
  | humanReadableError : String → PyExc
  | otherError : String → PyExc
  deriving DecidableEq

/-- Translation of `str(exception)`: both exception kinds carry a single
string argument, which is what `str` renders. -/
def pyStr : PyExc → String
  | .humanReadableError m => m
  | .otherError m => m

/-- Translation of `isinstance(x, str)`. -/
def PyVal.isStr : PyVal → Bool
  | .str _ => true
  | _ => false

/-- Translation of `isinstance(x, dict)`. -/
def PyVal.isDict : PyVal → Bool
  | .dict _ => true
  | _ => false

/-- First-match association lookup: dictionary indexing on the embedding. -/
def assocLookup : List (String × PyVal) → String → Option PyVal
  | [], _ => Option.none
  | (k2, v) :: rest, k => if k2 = k then some v else assocLookup rest k

/-- Dictionary item assignment `d[k] = v` on the embedding: replace the first
entry with key `k`, or append a fresh entry when the key is absent. -/
def assocSet : List (String × PyVal) → String → PyVal → List (String × PyVal)
  | [], k, v => [(k, v)]
  | (k2, v2) :: rest, k, v =>
      if k2 = k then (k, v) :: rest else (k2, v2) :: assocSet rest k v

/-- Translation of `x.get(k)`: for a dict, the value stored at `k` (or `None`
when the key is absent); any non-dict raises `AttributeError`. -/
def pyGet (v : PyVal) (k : String) : Except PyExc PyVal :=
  match v with
  | .dict es => .ok ((assocLookup es k).getD .none)
  | _ => .error (.otherError "AttributeError")

/-- Translation of `x[k] = w`: item assignment succeeds on a dict and raises
`TypeError` on every other value. -/
def pySetItem (v : PyVal) (k : String) (w : PyVal) : Except PyExc PyVal :=
  match v with
  | .dict es => .ok (.dict (assocSet es k w))
  | _ => .error (.otherError "TypeError")

/-- Field access used in theorem statements only: the value stored at key `k`
of a dict, `None` when absent or when the value is not a dict. -/
def pyField (v : PyVal) (k : String) : PyVal :=
  match v with
  | .dict es => (assocLookup es k).getD .none
  | _ => .none

/-- Python truthiness applied to an optional-list argument, as in
`errors if errors else dflt`: `None` and the empty list are falsy. -/
def listOrElse (xs : Option (List PyVal)) (dflt : List PyVal) : List PyVal :=
  match xs with
  | some es => if es.isEmpty then dflt else es
  | Option.none => dflt

/-- Modelled from the dependency `rest_framework.status`:
`is_success(code)` holds exactly on 200..299. -/
def is_success (code : Int) : Bool := decide (200 ≤ code ∧ code ≤ 299)

/-- Modelled from the dependency `rest_framework.status`:
`is_client_error(code)` holds exactly on 400..499. -/
def is_client_error (code : Int) : Bool := decide (400 ≤ code ∧ code ≤ 499)

/-- Modelled from the dependency `rest_framework.status`:
`is_server_error(code)` holds exactly on 500..599. -/
def is_server_error (code : Int) : Bool := decide (500 ≤ code ∧ code ≤ 599)

/-- Identical `is_valid_error_code` helper of both `views/view.py` and
`views/api.py`. -/
def is_valid_error_code (code : Int) : Bool :=
  is_client_error code || is_server_error code

/-- Identical `is_error_human_readable` helper of both files:
`isinstance(exception, HumanReadableError)`. -/
def is_error_human_readable (exception : PyExc) : Bool :=
  match exception with
  | .humanReadableError _ => true
  | .otherError _ => false

namespace View

/-- State of a `DjangoViewAPIMixin` handler: the attributes `status`,
`error_dict` and `CONTENT_TYPE` that the methods of the mixin read and write.
`error_dict` is kept as a dictionary, matching the class attribute literal. -/
structure Handler : Type where
  status : Int
  error_dict : List (String × PyVal)
  CONTENT_TYPE : String

/-- Class-attribute initial values of `DjangoViewAPIMixin`. -/
def initialHandler : Handler :=
  { status := 200
    error_dict :=
      [("title", .str "Error"),
       ("message", .str "Unable to process request."),
       ("errors", .none)]
    CONTENT_TYPE := "application/json" }

/-- Response object produced by the external `RESPONSE` constructor
(`JsonResponse` or DRF `Response`), which per the call sites packages
`(data, status, content_type)`. -/
structure HttpResponse : Type where
  data : PyVal
  status : Int
  content_type : String

/-- Translation of `get_response`: the external response constructor is
modelled as the packaging of its three arguments (the `try` retry in the source
without extra kwargs is irrelevant here, as no call site passes kwargs). -/
def get_response (data : PyVal) (status : Int) (content_type : String) :
    HttpResponse :=
  { data := data, status := status, content_type := content_type }

/-- Translation of `get_content_type`: the argument when it is not `None`,
else the class attribute `CONTENT_TYPE`. -/
def get_content_type (self : Handler) (content_type : Option String) : String :=
  match content_type with
  | some ct => ct
  | Option.none => self.CONTENT_TYPE

/-- Translation of `get_default_error_dict`. -/
def get_default_error_dict : PyVal :=
  .dict
    [("title", .str "Error"),
     ("message", .str "Unable to process request."),
     ("errors", .none)]

/-- Translation of `is_valid_error_dict` of `views/view.py`: the `try` block
builds the tuple `(isinstance(error_data, dict), isinstance(error_data.get
("title"), str), isinstance(error_data.get("message"), str))` and returns its
conjunction; the `except` clause returns `False` when a `.get` call raised. -/
def is_valid_error_dict (error_data : PyVal) : Except PyExc Bool :=
  match (do
      let t ← pyGet error_data "title"
      let m ← pyGet error_data "message"
      pure (error_data.isDict && t.isStr && m.isStr) : Except PyExc Bool) with
  | .ok b => .ok b
  | .error _ => .ok false

/-- Translation of `get_error_data` of `views/view.py`: keep a valid payload,
otherwise substitute the default; overwrite `message` with `str(exception)`
when the exception is human readable.  The `except` clause rebinds the local
to the default dict and the `return` inside `finally` delivers the local, so
no exception escapes. -/
def get_error_data (exception : PyExc) (error_data : PyVal) :
    Except PyExc PyVal :=
  match (do
      let valid ← is_valid_error_dict error_data
      let ed := if valid then error_data else get_default_error_dict
      if is_error_human_readable exception then
        pySetItem ed "message" (.str (pyStr exception))
      else
        pure ed : Except PyExc PyVal) with
  | .ok ed => .ok ed
  | .error _ => .ok get_default_error_dict

/-- Translation of `get_error_status_code`: first argument is `self.status`.
The body initialises `error_code = 400` and the `if`/`elif` chain prefers a
valid `self.status`, then a valid `code`; integer comparisons cannot raise, so
the surrounding `try`/`except` (returning 400) never fires. -/
def get_error_status_code (selfStatus code : Int) : Int :=
  if is_valid_error_code selfStatus then selfStatus
  else if is_valid_error_code code then code
  else 400

/-- Translation of `error_response` of `views/view.py`.  The `settings.DEBUG`
branch only logs and does not affect the result.  `error_data` and `status`
default to the handler attributes when the caller passes `None`. -/
def error_response (self : Handler) (exception : PyExc)
    (error_data : Option PyVal) (status : Option Int)
    (content_type : Option String) : Except PyExc HttpResponse := do
  let ed0 := match error_data with
    | some d => d
    | Option.none => .dict self.error_dict
  let st0 := match status with
    | some s => s
    | Option.none => self.status
  let ed ← get_error_data exception ed0
  let st := get_error_status_code self.status st0
  let ct := get_content_type self content_type
  pure (get_response ed st ct)

/-- Translation of `raise_error` of `views/view.py`: the method mutates the
handler state and then unconditionally raises `HumanReadableError(message)`;
it is modelled as returning the updated state paired with the raised
exception. -/
def raise_error (self : Handler) (title message : String) (status : Int)
    (errors : Option (List PyVal)) : Handler × PyExc :=
  let self := { self with status := status }
  let ed := assocSet self.error_dict "title" (.str title)
  let ed := assocSet ed "message" (.str message)
  let ed := assocSet ed "errors" (.list (listOrElse errors []))
  ({ self with error_dict := ed }, .humanReadableError message)

/-- Application of `raise_error` at its Python default arguments
`title="Error", message="Unable to process request.", status=400,
errors=None`. -/
def raise_error_defaults (self : Handler) : Handler × PyExc :=
  raise_error self "Error" "Unable to process request." 400 Option.none

/-- Translation of `server_error_response` of `views/view.py`: mutate the
handler state (with `errors` falling back to `[str(exception)]` when the
argument is falsy) and delegate to `error_response` with the updated
`error_dict` and `status`. -/
def server_error_response (self : Handler) (exception : PyExc)
    (title message : String) (status : Int) (errors : Option (List PyVal)) :
    Handler × Except PyExc HttpResponse :=
  let self := { self with status := status }
  let ed := assocSet self.error_dict "title" (.str title)
  let ed := assocSet ed "message" (.str message)
  let ed := assocSet ed "errors" (.list (listOrElse errors [.str (pyStr exception)]))
  let self := { self with error_dict := ed }
  (self,
    error_response self exception (some (.dict self.error_dict))
      (some self.status) Option.none)

/-- Application of `server_error_response` at its Python default arguments
`title="Server Error", message="Please contact developer.", status=500,
errors=None`. -/
def server_error_response_defaults (self : Handler) (exception : PyExc) :
    Handler × Except PyExc HttpResponse :=
  server_error_response self exception "Server Error"
    "Please contact developer." 500 Option.none

/-- Translation of `success_response` of `views/view.py`: a status outside the
2xx range is replaced by 200; the data is passed through unchanged. -/
def success_response (self : Handler) (data : PyVal) (status : Int)
    (content_type : Option String) : HttpResponse :=
  let st := if !(is_success status) then 200 else status
  let ct := get_content_type self content_type
  get_response data st ct

end View

/-- Helper character-list prefix test used to model the Python substring
operator `needle in haystack` on strings. -/
def charsPrefixOf : List Char → List Char → Bool
  | [], _ => true
  | _ :: _, [] => false
  | c :: cs, d :: ds => c == d && charsPrefixOf cs ds

/-- Helper character-list infix test used to model the Python substring
operator `needle in haystack` on strings. -/
def charsInfixOf (needle : List Char) : List Char → Bool
  | [] => charsPrefixOf needle []
  | d :: ds => charsPrefixOf needle (d :: ds) || charsInfixOf needle ds

/-- Translation of the membership test `k in container`: key membership on a
dict, substring on a string, element equality on a list, and `TypeError` on
values that support no membership test. -/
def pyContains (container : PyVal) (k : String) : Except PyExc Bool :=
  match container with
  | .dict es => .ok (assocLookup es k).isSome
  | .str s => .ok (charsInfixOf k.data s.data)
  | .list xs =>
      .ok (xs.any fun v => match v with
        | .str s => s == k
        | _ => false)
  | _ => .error (.otherError "TypeError")

namespace Api

/-- State of a `DjangoAPIMixin` handler (`views/api.py`): the attributes
`status`, `error_dict` and `CONTENT_TYPE` that the methods of the mixin read and
write.  `error_dict` is an arbitrary value because `set_error_data` rebinds
the attribute to the payload of the caller. -/
structure Handler : Type where
  status : Int
  error_dict : PyVal
  CONTENT_TYPE : Option String

/-- Class attribute `default_error_dict` of `DjangoAPIMixin`. -/
def default_error_dict : PyVal :=
  .dict
    [("success", .bool false),
     ("title", .str "Something went wrong."),
     ("message", .str "Please contact system administrator."),
     ("errors", .none)]

/-- Class-attribute initial values of `DjangoAPIMixin` (`error_dict` starts
equal to `default_error_dict` and `CONTENT_TYPE` is `None`). -/
def initialHandler : Handler :=
  { status := 200
    error_dict := default_error_dict
    CONTENT_TYPE := Option.none }

/-- Response object produced by the `RESPONSE` constructor in `views/api.py`;
`content_type` may be `None` because the class default is `None`. -/
structure HttpResponse : Type where
  data : PyVal
  status : Int
  content_type : Option String

/-- Translation of `get_content_type` of `views/api.py`. -/
def get_content_type (self : Handler) (content_type : Option String) :
    Option String :=
  match content_type with
  | some ct => some ct
  | Option.none => self.CONTENT_TYPE

/-- Translation of `is_valid_error_dict` of `views/api.py`: the `try` block
conjoins `isinstance(error_data, dict)`, `"title" in error_data` and
`"message" in error_data` (no check on the value types); the `except` clause
returns `False` when a membership test raised. -/
def is_valid_error_dict (error_data : PyVal) : Except PyExc Bool :=
  match (do
      let t ← pyContains error_data "title"
      let m ← pyContains error_data "message"
      pure (error_data.isDict && t && m) : Except PyExc Bool) with
  | .ok b => .ok b
  | .error _ => .ok false

/-- Translation of `set_error_data` of `views/api.py`: rebind
`self.error_dict` to the payload when valid, else to `default_error_dict`;
for a human-readable exception overwrite `message` and `description` with
`str(exception)`.  The catch-all `except` rebinds to the default, so the
method never raises. -/
def set_error_data (self : Handler) (exception : PyExc) (error_data : PyVal) :
    Handler :=
  match (do
      let valid ← is_valid_error_dict error_data
      let ed := if valid then error_data else default_error_dict
      if is_error_human_readable exception then
        let ed2 ← pySetItem ed "message" (.str (pyStr exception))
        pySetItem ed2 "description" (.str (pyStr exception))
      else
        pure ed : Except PyExc PyVal) with
  | .ok ed => { self with error_dict := ed }
  | .error _ => { self with error_dict := default_error_dict }

/-- Translation of `set_error_status_code` of `views/api.py`: keep a
`self.status` that is already a valid error code, else adopt a valid `code`,
else fall back to 400 (integer comparisons cannot raise, so the `except`
branch setting 400 never fires). -/
def set_error_status_code (self : Handler) (code : Int) : Handler :=
  if is_valid_error_code self.status then self
  else if is_valid_error_code code then { self with status := code }
  else { self with status := 400 }

/-- Translation of `error_response` of `views/api.py`.  The source passes the
local `error_data` and the local `status` to the response constructor: the
resolved `self.status` is NOT used for the response, and the body is the
object supplied by the caller.  When the payload is valid, `set_error_data` stores that very
object in `self.error_dict` and then mutates it, so the body reflects the
mutation; when invalid, the body is the original (unrepaired) payload. -/
def error_response (self : Handler) (exception : PyExc) (error_data : PyVal)
    (status : Int) (content_type : Option String) : Handler × HttpResponse :=
  let self2 := set_error_data self exception error_data
  let self3 := set_error_status_code self2 status
  let body :=
    match is_valid_error_dict error_data with
    | .ok true => self2.error_dict
    | _ => error_data
  (self3,
    { data := body, status := status
      content_type := get_content_type self content_type })

/-- Python truthiness for the `errors` argument of `server_error_response` in
`views/api.py`: `errors if errors else str(exception)` — a truthy list is kept
as a list, while `None` or the empty list yield the BARE string
`str(exception)` (not a list). -/
def errorsOrStr (errors : Option (List PyVal)) (exception : PyExc) : PyVal :=
  match errors with
  | some es => if es.isEmpty then .str (pyStr exception) else .list es
  | Option.none => .str (pyStr exception)

/-- Translation of `server_error_response` of `views/api.py`: mutate the
handler state (also setting a fixed `description`) and delegate to
`error_response` with `self.error_dict` and `self.status`.  Item assignment
on a non-dict `error_dict` would raise, hence the `Except` result. -/
def server_error_response (self : Handler) (exception : PyExc)
    (message title : String) (status : Int) (errors : Option (List PyVal)) :
    Except PyExc (Handler × HttpResponse) := do
  let self := { self with status := status }
  let ed ← pySetItem self.error_dict "title" (.str title)
  let ed ← pySetItem ed "message" (.str message)
  let ed ← pySetItem ed "description"
    (.str "Something went wrong. Please contact system administrator.")
  let ed ← pySetItem ed "errors" (errorsOrStr errors exception)
  let self := { self with error_dict := ed }
  pure (error_response self exception self.error_dict self.status Option.none)

/-- Application of `server_error_response` at its Python default arguments
`message="Please contact system administrator.",
title="Something went wrong.", status=500, errors=None`. -/
def server_error_response_defaults (self : Handler) (exception : PyExc) :
    Except PyExc (Handler × HttpResponse) :=
  server_error_response self exception "Please contact system administrator."
    "Something went wrong." 500 Option.none

/-- Translation of `raise_error` of `views/api.py`: mutate the handler state
(also setting `description` to the message) and raise
`HumanReadableError(message)`; modelled as the updated state paired with the
raised exception, under `Except` for the (dict-only) item assignments. -/
def raise_error (self : Handler) (message title : String) (status : Int)
    (errors : Option (List PyVal)) : Except PyExc (Handler × PyExc) := do
  let self := { self with status := status }
  let ed ← pySetItem self.error_dict "title" (.str title)
  let ed ← pySetItem ed "message" (.str message)
  let ed ← pySetItem ed "description" (.str message)
  let ed ← pySetItem ed "errors" (.list (listOrElse errors []))
  pure ({ self with error_dict := ed }, .humanReadableError message)

/-- Translation of `success_response` of `views/api.py`: a status outside the
2xx range is replaced by 200; the data is passed through unchanged. -/
def success_response (self : Handler) (data : PyVal) (status : Int)
    (content_type : Option String) : HttpResponse :=
  let st := if !(is_success status) then 200 else status
  { data := data, status := st
    content_type := get_content_type self content_type }

end Api

namespace ViewHeap

/-!
Heap-level model of `DjangoViewAPIMixin` (`views/view.py`), capturing Python
object identity: `error_dict` is a CLASS attribute holding one mutable dict
object; an attribute read `self.error_dict` yields the own attribute of the instance, when present,
attribute when one was assigned and otherwise the shared class object, and
item assignments mutate that object in place (the source never rebinds
`self.error_dict`, it only assigns `self.status`).
-/

/-- Heap of dict objects addressed by naturals, together with the address held
by the class attribute `error_dict` and an allocation counter. -/
structure Store : Type where
  heap : Nat → List (String × PyVal)
  nextAddr : Nat
  classErrorDict : Nat

/-- Dereference of a dict object. -/
def Store.read (st : Store) (a : Nat) : List (String × PyVal) :=
  st.heap a

/-- In-place mutation of the dict object at address `a`. -/
def Store.write (st : Store) (a : Nat) (d : List (String × PyVal)) : Store :=
  { st with heap := fun b => if b = a then d else st.heap b }

/-- Allocation of a fresh dict object. -/
def Store.alloc (st : Store) (d : List (String × PyVal)) : Store × Nat :=
  ({ st with
      heap := fun b => if b = st.nextAddr then d else st.heap b
      nextAddr := st.nextAddr + 1 },
    st.nextAddr)

/-- Contents of the class attribute `error_dict` literal in `views/view.py`. -/
def classDictEntries : List (String × PyVal) :=
  [("title", .str "Error"),
   ("message", .str "Unable to process request."),
   ("errors", .none)]

/-- Initial store: address 0 holds the single class-attribute dict. -/
def initStore : Store :=
  { heap := fun b => if b = 0 then classDictEntries else []
    nextAddr := 1
    classErrorDict := 0 }

/-- Per-instance attribute dictionary of one handler: the methods of the mixin
never assign `self.error_dict`, so `ownErrorDict` stays `none` unless user
code assigns it; `self.status = ...` assigns `ownStatus`. -/
structure Obj : Type where
  ownErrorDict : Option Nat
  ownStatus : Option Int

/-- Freshly constructed handler instance (no instance attributes). -/
def newInstance : Obj :=
  { ownErrorDict := Option.none, ownStatus := Option.none }

/-- Python attribute resolution for `self.error_dict`: the instance attribute
when present, else the class attribute. -/
def errorDictAddr (st : Store) (o : Obj) : Nat :=
  match o.ownErrorDict with
  | some a => a
  | Option.none => st.classErrorDict

/-- Python attribute resolution for `self.status` (class default 200). -/
def statusOf (o : Obj) : Int :=
  match o.ownStatus with
  | some s => s
  | Option.none => 200

/-- Heap-level translation of `raise_error` of `views/view.py`:
`self.status = status` creates an instance attribute, while the item
assignments mutate, in place, the dict object reachable as
`self.error_dict` — the shared class object when the instance never assigned
its own. -/
def raise_error (st : Store) (o : Obj) (title message : String) (status : Int)
    (errors : Option (List PyVal)) : (Store × Obj) × PyExc :=
  let o := { o with ownStatus := some status }
  let a := errorDictAddr st o
  let d := st.read a
  let d := assocSet d "title" (.str title)
  let d := assocSet d "message" (.str message)
  let d := assocSet d "errors" (.list (listOrElse errors []))
  ((st.write a d, o), .humanReadableError message)

/-- Heap-level translation of `get_error_data` of `views/view.py` for a
dict-valued `error_data` argument (a reference to the object at address `a`):
a valid dict is kept — the function hands back the very reference it was
given — and the human-readable branch mutates that object in place; an
invalid dict is replaced by a freshly allocated default dict. -/
def get_error_data (st : Store) (exception : PyExc) (a : Nat) : Store × Nat :=
  match View.is_valid_error_dict (.dict (st.read a)) with
  | .ok true =>
      if is_error_human_readable exception then
        (st.write a (assocSet (st.read a) "message" (.str (pyStr exception))), a)
      else (st, a)
  | _ =>
      let stfresh := st.alloc classDictEntries
      if is_error_human_readable exception then
        (stfresh.1.write stfresh.2
          (assocSet (stfresh.1.read stfresh.2) "message"
            (.str (pyStr exception))), stfresh.2)
      else stfresh

/-- Heap-level translation of `error_response` of `views/view.py` (result:
final store, address of the response body dict, response status). -/
def error_response (st : Store) (o : Obj) (exception : PyExc)
    (error_data : Option Nat) (status : Option Int) : Store × Nat × Int :=
  let a0 := match error_data with
    | some a => a
    | Option.none => errorDictAddr st o
  let s0 := match status with
    | some s => s
    | Option.none => statusOf o
  let res := get_error_data st exception a0
  (res.1, res.2, View.get_error_status_code (statusOf o) s0)

/-- Heap-level translation of `server_error_response` of `views/view.py`:
the title/message/errors item assignments mutate the reachable `error_dict`
object in place, then the method delegates to `error_response`. -/
def server_error_response (st : Store) (o : Obj) (exception : PyExc)
    (title message : String) (status : Int) (errors : Option (List PyVal)) :
    (Store × Obj) × Nat × Int :=
  let o := { o with ownStatus := some status }
  let a := errorDictAddr st o
  let d := st.read a
  let d := assocSet d "title" (.str title)
  let d := assocSet d "message" (.str message)
  let d := assocSet d "errors" (.list (listOrElse errors [.str (pyStr exception)]))
  let st := st.write a d
  let res := error_response st o exception (some a) (some status)
  ((res.1, o), res.2)

end ViewHeap

/-! Shared helper lemmas. -/

theorem assocLookup_assocSet_self (es : List (String × PyVal)) (k : String)
    (v : PyVal) : assocLookup (assocSet es k v) k = some v := by
  induction es with
  | nil => simp [assocSet, assocLookup]
  | cons p rest ih =>
      obtain ⟨k2, v2⟩ := p
      by_cases h : k2 = k
      · simp [assocSet, h, assocLookup]
      · simp [assocSet, h, assocLookup, ih]

theorem assocLookup_assocSet_ne (es : List (String × PyVal)) (k k2 : String)
    (v : PyVal) (h : k2 ≠ k) :
    assocLookup (assocSet es k v) k2 = assocLookup es k2 := by
  have hne : k ≠ k2 := fun hh => h hh.symm
  induction es with
  | nil => simp [assocSet, assocLookup, hne]
  | cons p rest ih =>
      obtain ⟨k3, v3⟩ := p
      by_cases h3 : k3 = k
      · subst h3
        simp [assocSet, assocLookup, hne]
      · simp [assocSet, h3, assocLookup, ih]

theorem is_valid_error_dict_dict (es : List (String × PyVal)) :
    View.is_valid_error_dict (.dict es) =
      .ok (((assocLookup es "title").getD .none).isStr &&
           ((assocLookup es "message").getD .none).isStr) := by
  simp [View.is_valid_error_dict, pyGet, PyVal.isDict, Bind.bind, Except.bind,
    Pure.pure, Except.pure]

theorem is_valid_error_dict_nondict (p : PyVal) (h : p.isDict = false) :
    View.is_valid_error_dict p = .ok false := by
  cases p <;> simp_all [View.is_valid_error_dict, pyGet, PyVal.isDict,
    Bind.bind, Except.bind]

theorem is_valid_error_dict_ok (p : PyVal) :
    ∃ b, View.is_valid_error_dict p = .ok b := by
  cases p <;>
    simp [View.is_valid_error_dict, pyGet, PyVal.isDict, Bind.bind,
      Except.bind, Pure.pure, Except.pure]

theorem is_valid_error_dict_true_iff (p : PyVal) :
    View.is_valid_error_dict p = .ok true ↔
      ∃ es, p = .dict es ∧
        ((assocLookup es "title").getD .none).isStr = true ∧
        ((assocLookup es "message").getD .none).isStr = true := by
  cases p <;>
    simp [View.is_valid_error_dict, pyGet, PyVal.isDict, Bind.bind,
      Except.bind, Pure.pure, Except.pure]

theorem get_error_data_valid_hre (es : List (String × PyVal)) (m : String)
    (hv : View.is_valid_error_dict (.dict es) = .ok true) :
    View.get_error_data (.humanReadableError m) (.dict es) =
      .ok (.dict (assocSet es "message" (.str m))) := by
  simp [View.get_error_data, hv, is_error_human_readable, pySetItem, pyStr,
    Bind.bind, Except.bind, Pure.pure, Except.pure]

theorem get_error_data_valid_nonhre (p : PyVal) (e : PyExc)
    (hv : View.is_valid_error_dict p = .ok true)
    (he : is_error_human_readable e = false) :
    View.get_error_data e p = .ok p := by
  simp [View.get_error_data, hv, he, Bind.bind, Except.bind, Pure.pure,
    Except.pure]

theorem get_error_data_invalid_nonhre (p : PyVal) (e : PyExc)
    (hv : View.is_valid_error_dict p = .ok false)
    (he : is_error_human_readable e = false) :
    View.get_error_data e p = .ok View.get_default_error_dict := by
  simp [View.get_error_data, hv, he, Bind.bind, Except.bind, Pure.pure,
    Except.pure]

theorem get_error_data_ok (e : PyExc) (p : PyVal) :
    ∃ q, View.get_error_data e p = .ok q := by
  obtain ⟨b, hb⟩ := is_valid_error_dict_ok p
  cases b with
  | false =>
      cases he : is_error_human_readable e with
      | false => exact ⟨_, get_error_data_invalid_nonhre p e hb he⟩
      | true =>
          cases e with
          | humanReadableError m =>
              refine ⟨.dict (assocSet
                [("title", .str "Error"),
                 ("message", .str "Unable to process request."),
                 ("errors", .none)] "message" (.str m)), ?_⟩
              simp [View.get_error_data, hb, is_error_human_readable,
                View.get_default_error_dict, pySetItem, pyStr, Bind.bind,
                Except.bind, Pure.pure, Except.pure]
          | otherError m => simp [is_error_human_readable] at he
  | true =>
      obtain ⟨es, rfl, _, _⟩ := (is_valid_error_dict_true_iff p).mp hb
      cases he : is_error_human_readable e with
      | false => exact ⟨_, get_error_data_valid_nonhre _ e hb he⟩
      | true =>
          cases e with
          | humanReadableError m => exact ⟨_, get_error_data_valid_hre es m hb⟩
          | otherError m => simp [is_error_human_readable] at he

theorem error_response_ok (h : View.Handler) (e : PyExc) (ed : Option PyVal)
    (st : Option Int) (ct : Option String) :
    ∃ r, View.error_response h e ed st ct = .ok r := by
  obtain ⟨q, hq⟩ :=
    get_error_data_ok e
      (match ed with | some d => d | Option.none => .dict h.error_dict)
  refine ⟨View.get_response q
      (View.get_error_status_code h.status
        (match st with | some s => s | Option.none => h.status))
      (View.get_content_type h ct), ?_⟩
  simp [View.error_response, hq, Bind.bind, Except.bind, Pure.pure,
    Except.pure]

theorem valid_error_code_iff (c : Int) :
    is_valid_error_code c = true ↔ (400 ≤ c ∧ c ≤ 599) := by
  unfold is_valid_error_code is_client_error is_server_error
  simp only [Bool.or_eq_true, decide_eq_true_eq]
  omega

theorem get_error_status_code_range (s c : Int) :
    400 ≤ View.get_error_status_code s c ∧
      View.get_error_status_code s c ≤ 599 := by
  unfold View.get_error_status_code
  by_cases h1 : is_valid_error_code s = true
  · simp only [h1, if_true]
    exact (valid_error_code_iff s).mp h1
  · by_cases h2 : is_valid_error_code c = true
    · simp only [h1, h2, if_true, if_false, Bool.false_eq_true]
      exact (valid_error_code_iff c).mp h2
    · simp only [h1, h2, if_false, Bool.false_eq_true]
      omega

theorem api_is_valid_error_dict_ok (p : PyVal) :
    ∃ b, Api.is_valid_error_dict p = .ok b := by
  cases p <;>
    simp [Api.is_valid_error_dict, pyContains, PyVal.isDict, Bind.bind,
      Except.bind, Pure.pure, Except.pure]

theorem api_is_valid_error_dict_true_iff (p : PyVal) :
    Api.is_valid_error_dict p = .ok true ↔
      ∃ es, p = .dict es ∧ (assocLookup es "title").isSome = true ∧
        (assocLookup es "message").isSome = true := by
  cases p <;>
    simp [Api.is_valid_error_dict, pyContains, PyVal.isDict, Bind.bind,
      Except.bind, Pure.pure, Except.pure]

theorem api_set_error_data_invalid_nonhre (h : Api.Handler) (e : PyExc)
    (p : PyVal) (hv : Api.is_valid_error_dict p = .ok false)
    (he : is_error_human_readable e = false) :
    (Api.set_error_data h e p).error_dict = Api.default_error_dict := by
  simp [Api.set_error_data, hv, he, Bind.bind, Except.bind, Pure.pure,
    Except.pure]

theorem api_set_error_data_valid_nonhre (h : Api.Handler) (e : PyExc)
    (p : PyVal) (hv : Api.is_valid_error_dict p = .ok true)
    (he : is_error_human_readable e = false) :
    Api.set_error_data h e p = { h with error_dict := p } := by
  simp [Api.set_error_data, hv, he, Bind.bind, Except.bind, Pure.pure,
    Except.pure]

theorem api_set_error_data_valid_hre (h : Api.Handler)
    (es : List (String × PyVal)) (msg : String)
    (hv : Api.is_valid_error_dict (.dict es) = .ok true) :
    Api.set_error_data h (.humanReadableError msg) (.dict es) =
      { h with error_dict := .dict (assocSet (assocSet es "message"
          (.str msg)) "description" (.str msg)) } := by
  simp [Api.set_error_data, hv, is_error_human_readable, pySetItem, pyStr,
    Bind.bind, Except.bind, Pure.pure, Except.pure]

theorem api_valid_after_sets (es : List (String × PyVal)) (x y z w : PyVal) :
    Api.is_valid_error_dict (.dict (assocSet (assocSet (assocSet (assocSet es
      "title" x) "message" y) "description" z) "errors" w)) = .ok true := by
  apply (api_is_valid_error_dict_true_iff _).mpr
  refine ⟨_, rfl, ?_, ?_⟩
  · rw [assocLookup_assocSet_ne _ _ _ _ (by decide),
      assocLookup_assocSet_ne _ _ _ _ (by decide),
      assocLookup_assocSet_ne _ _ _ _ (by decide),
      assocLookup_assocSet_self]
    rfl
  · rw [assocLookup_assocSet_ne _ _ _ _ (by decide),
      assocLookup_assocSet_ne _ _ _ _ (by decide),
      assocLookup_assocSet_self]
    rfl

theorem api_set_error_data_valid_field (h : Api.Handler)
    (es : List (String × PyVal)) (e : PyExc) (k : String)
    (hv : Api.is_valid_error_dict (.dict es) = .ok true)
    (hk1 : k ≠ "message") (hk2 : k ≠ "description") :
    pyField (Api.set_error_data h e (.dict es)).error_dict k =
      pyField (.dict es) k := by
  cases e with
  | humanReadableError msg =>
      rw [api_set_error_data_valid_hre h es msg hv]
      simp only [pyField]
      rw [assocLookup_assocSet_ne _ _ _ _ hk2,
        assocLookup_assocSet_ne _ _ _ _ hk1]
  | otherError msg =>
      rw [api_set_error_data_valid_nonhre h (.otherError msg) (.dict es) hv
        rfl]

theorem api_server_error_response_eq (h : Api.Handler)
    (es ed4 : List (String × PyVal)) (e : PyExc) (t m : String) (s : Int)
    (errs : Option (List PyVal)) (hed : h.error_dict = .dict es)
    (hd4 : ed4 = assocSet (assocSet (assocSet (assocSet es "title" (.str t))
      "message" (.str m)) "description"
      (.str "Something went wrong. Please contact system administrator."))
      "errors" (Api.errorsOrStr errs e)) :
    Api.server_error_response h e m t s errs =
      .ok (Api.error_response { h with status := s, error_dict := .dict ed4 }
        e (.dict ed4) s Option.none) := by
  subst hd4
  simp [Api.server_error_response, hed, pySetItem, Bind.bind, Except.bind,
    Pure.pure, Except.pure]

/-! Claim theorems. -/

/-- C1: status resolution keeps the current handler status when it already
is a valid error code (client error 400..499 or server error 500..599);
otherwise it adopts the requested code when that is a valid error code;
otherwise it falls back to 400.  `set_error_status_code` of `views/api.py`
realises the same resolution on the handler state.  Concrete cases: current
403 / requested 400 gives 403, current 200 / requested 404 gives 404, current
200 / requested 200 gives 400. -/
theorem C1_status_resolution :
    (∀ s r : Int, 400 ≤ s → s ≤ 599 → View.get_error_status_code s r = s) ∧
    (∀ s r : Int, ¬(400 ≤ s ∧ s ≤ 599) → 400 ≤ r → r ≤ 599 →
      View.get_error_status_code s r = r) ∧
    (∀ s r : Int, ¬(400 ≤ s ∧ s ≤ 599) → ¬(400 ≤ r ∧ r ≤ 599) →
      View.get_error_status_code s r = 400) ∧
    (∀ (h : Api.Handler) (r : Int),
      (Api.set_error_status_code h r).status =
        View.get_error_status_code h.status r) ∧
    View.get_error_status_code 403 400 = 403 ∧
    View.get_error_status_code 200 404 = 404 ∧
    View.get_error_status_code 200 200 = 400 := by
  refine ⟨?_, ?_, ?_, ?_, by decide, by decide, by decide⟩
  · intro s r h1 h2
    have hv : is_valid_error_code s = true :=
      (valid_error_code_iff s).mpr ⟨h1, h2⟩
    simp [View.get_error_status_code, hv]
  · intro s r hns h1 h2
    have hvs : ¬ is_valid_error_code s = true :=
      fun hh => hns ((valid_error_code_iff s).mp hh)
    have hvr : is_valid_error_code r = true :=
      (valid_error_code_iff r).mpr ⟨h1, h2⟩
    simp [View.get_error_status_code, hvs, hvr]
  · intro s r hns hnr
    have hvs : ¬ is_valid_error_code s = true :=
      fun hh => hns ((valid_error_code_iff s).mp hh)
    have hvr : ¬ is_valid_error_code r = true :=
      fun hh => hnr ((valid_error_code_iff r).mp hh)
    simp [View.get_error_status_code, hvs, hvr]
  · intro h r
    unfold Api.set_error_status_code View.get_error_status_code
    by_cases h1 : is_valid_error_code h.status = true
    · simp [h1]
    · by_cases h2 : is_valid_error_code r = true
      · simp [h1, h2]
      · simp [h1, h2]

/-- Witness for C1 at concrete inputs: current 403 keeps 403 over a requested
400, and current 200 adopts a requested 404. -/
theorem C1_status_resolution_witness :
    View.get_error_status_code 403 400 = 403 ∧
    View.get_error_status_code 200 404 = 404 :=
  ⟨C1_status_resolution.1 403 400 (by decide) (by decide),
   C1_status_resolution.2.1 200 404 (by decide) (by decide) (by decide)⟩

/-- C2: no operation of the error-response normaliser of `views/view.py`
other than `raise_error` propagates an exception to its caller: for every
exception value, candidate payload of any type, status and content type,
`is_valid_error_dict`, `get_error_data` and `error_response` always return
`ok` results, and `get_error_status_code` always produces a status in the
error range 400..599 (falling back to 400 rather than failing). -/
theorem C2_never_raises :
    (∀ p : PyVal, ∃ b, View.is_valid_error_dict p = .ok b) ∧
    (∀ (e : PyExc) (p : PyVal), ∃ q, View.get_error_data e p = .ok q) ∧
    (∀ (h : View.Handler) (e : PyExc) (ed : Option PyVal) (st : Option Int)
        (ct : Option String), ∃ r, View.error_response h e ed st ct = .ok r) ∧
    (∀ s c : Int, 400 ≤ View.get_error_status_code s c ∧
        View.get_error_status_code s c ≤ 599) :=
  ⟨is_valid_error_dict_ok, get_error_data_ok, error_response_ok,
    get_error_status_code_range⟩

/-- C8: `success_response` (both the `views/view.py` and the `views/api.py`
version) returns a response whose status is the given status when it lies in
the 2xx range and 200 otherwise, whose content type is the given one or the
class default when none is given, and whose body is the given data unchanged
(no payload validation); concretely, status 701 is coerced to 200 with the
body intact. -/
theorem C8_success_response :
    (∀ (h : View.Handler) (data : PyVal) (status : Int) (ct : Option String),
      (View.success_response h data status ct).status =
        (if 200 ≤ status ∧ status ≤ 299 then status else 200) ∧
      (View.success_response h data status ct).data = data ∧
      (View.success_response h data status ct).content_type =
        (match ct with | some c => c | Option.none => h.CONTENT_TYPE)) ∧
    (∀ (h : Api.Handler) (data : PyVal) (status : Int) (ct : Option String),
      (Api.success_response h data status ct).status =
        (if 200 ≤ status ∧ status ≤ 299 then status else 200) ∧
      (Api.success_response h data status ct).data = data ∧
      (Api.success_response h data status ct).content_type =
        (match ct with | some c => some c | Option.none => h.CONTENT_TYPE)) ∧
    (View.success_response View.initialHandler (.dict [("a", .int 1)]) 701
        Option.none).status = 200 ∧
    (View.success_response View.initialHandler (.dict [("a", .int 1)]) 701
        Option.none).data = .dict [("a", .int 1)] := by
  refine ⟨?_, ?_, rfl, rfl⟩
  · intro h data status ct
    refine ⟨?_, rfl, ?_⟩
    · unfold View.success_response is_success View.get_response
      by_cases hs : (200 ≤ status ∧ status ≤ 299)
      · simp [hs]
      · simp [hs]
    · cases ct <;> rfl
  · intro h data status ct
    refine ⟨?_, rfl, ?_⟩
    · unfold Api.success_response is_success
      by_cases hs : (200 ≤ status ∧ status ≤ 299)
      · simp [hs]
      · simp [hs]
    · cases ct <;> rfl

/-- Counterexample to C3: on the payload whose `title` and `message` values
are `None`, the `views/api.py` validator returns `True` although the title
value is not a string, so the claimed string-typing requirement fails for
`DjangoAPIMixin.is_valid_error_dict`. -/
theorem C3_counterexample :
    Api.is_valid_error_dict
        (.dict [("title", .none), ("message", .none)]) = .ok true ∧
    PyVal.isStr .none = false := ⟨rfl, rfl⟩

/-- C3 amended: the `views/view.py` validator returns true iff the payload is
a dict whose `title` and `message` values are present and are strings, while
the `views/api.py` validator returns true iff the payload is a dict that
merely contains the keys `title` and `message` (values of any type); neither
validator ever raises. -/
theorem C3_validators :
    (∀ p : PyVal, View.is_valid_error_dict p = .ok true ↔
      ∃ es, p = .dict es ∧
        ((assocLookup es "title").getD .none).isStr = true ∧
        ((assocLookup es "message").getD .none).isStr = true) ∧
    (∀ p : PyVal, Api.is_valid_error_dict p = .ok true ↔
      ∃ es, p = .dict es ∧ (assocLookup es "title").isSome = true ∧
        (assocLookup es "message").isSome = true) ∧
    (∀ p : PyVal, ∃ b, View.is_valid_error_dict p = .ok b) ∧
    (∀ p : PyVal, ∃ b, Api.is_valid_error_dict p = .ok b) :=
  ⟨is_valid_error_dict_true_iff, api_is_valid_error_dict_true_iff,
    is_valid_error_dict_ok, api_is_valid_error_dict_ok⟩

/-- Witness for C3 on a concrete valid payload. -/
theorem C3_validators_witness :
    View.is_valid_error_dict
        (.dict [("title", .str "T"), ("message", .str "M")]) = .ok true :=
  (C3_validators.1 (.dict [("title", .str "T"), ("message", .str "M")])).mpr
    ⟨[("title", .str "T"), ("message", .str "M")], rfl, rfl, rfl⟩

/-- C4: for a valid payload (string `title` and `message`) and a
`HumanReadableError`, `get_error_data` of `views/view.py` returns the payload
with its `message` replaced by the display string of the exception while
`title` and `errors` are unchanged; for any exception that is not human
readable a valid payload is returned unchanged (so the message stays the
own message of the payload), and for non-human-readable exceptions the result does not
depend on the exception at all. -/
theorem C4_human_readable_message :
    (∀ (es : List (String × PyVal)) (m : String),
      View.is_valid_error_dict (.dict es) = .ok true →
      ∃ q, View.get_error_data (.humanReadableError m) (.dict es) =
          .ok (.dict q) ∧
        assocLookup q "message" = some (.str m) ∧
        assocLookup q "title" = assocLookup es "title" ∧
        assocLookup q "errors" = assocLookup es "errors") ∧
    (∀ (p : PyVal) (e : PyExc), View.is_valid_error_dict p = .ok true →
      is_error_human_readable e = false →
      View.get_error_data e p = .ok p) ∧
    (∀ (p : PyVal) (e1 e2 : PyExc), is_error_human_readable e1 = false →
      is_error_human_readable e2 = false →
      View.get_error_data e1 p = View.get_error_data e2 p) := by
  refine ⟨?_, get_error_data_valid_nonhre, ?_⟩
  · intro es m hv
    refine ⟨assocSet es "message" (.str m),
      get_error_data_valid_hre es m hv, ?_, ?_, ?_⟩
    · exact assocLookup_assocSet_self es "message" (.str m)
    · exact assocLookup_assocSet_ne es "message" "title" (.str m) (by decide)
    · exact assocLookup_assocSet_ne es "message" "errors" (.str m) (by decide)
  · intro p e1 e2 h1 h2
    obtain ⟨b, hb⟩ := is_valid_error_dict_ok p
    cases b with
    | false =>
        rw [get_error_data_invalid_nonhre p e1 hb h1,
          get_error_data_invalid_nonhre p e2 hb h2]
    | true =>
        rw [get_error_data_valid_nonhre p e1 hb h1,
          get_error_data_valid_nonhre p e2 hb h2]

/-- Witness for C4 on the concrete example used in the tests. -/
theorem C4_human_readable_message_witness :
    ∃ q, View.get_error_data (.humanReadableError "X")
        (.dict [("title", .str "T"), ("message", .str "M")]) =
        .ok (.dict q) ∧
      assocLookup q "message" = some (.str "X") ∧
      assocLookup q "title" =
        assocLookup [("title", .str "T"), ("message", .str "M")] "title" ∧
      assocLookup q "errors" =
        assocLookup [("title", .str "T"), ("message", .str "M")] "errors" :=
  C4_human_readable_message.1 [("title", .str "T"), ("message", .str "M")]
    "X" rfl

/-- Counterexample to C5: for an invalid payload and a non-human-readable
exception, `set_error_data` of `views/api.py` substitutes the api class
default dict, whose title is "Something went wrong." — not the claimed fixed
payload with title "Error". -/
theorem C5_counterexample :
    pyField (Api.set_error_data Api.initialHandler (.otherError "X")
        (.dict [])).error_dict "title" = .str "Something went wrong." ∧
    PyVal.str "Something went wrong." ≠ PyVal.str "Error" := by
  refine ⟨rfl, ?_⟩
  intro hh
  injection hh with h2
  exact absurd h2 (by decide)

/-- C5 amended: for a candidate payload failing the respective validator and
a non-human-readable exception, `views/view.py` substitutes the fixed default
payload (title "Error", message "Unable to process request.", errors None),
while `views/api.py` substitutes its own class default (success False, title
"Something went wrong.", message "Please contact system administrator.",
errors None). -/
theorem C5_default_substitution :
    (∀ (p : PyVal) (e : PyExc), View.is_valid_error_dict p = .ok false →
      is_error_human_readable e = false →
      View.get_error_data e p = .ok (.dict
        [("title", .str "Error"),
         ("message", .str "Unable to process request."),
         ("errors", .none)])) ∧
    (∀ (h : Api.Handler) (p : PyVal) (e : PyExc),
      Api.is_valid_error_dict p = .ok false →
      is_error_human_readable e = false →
      (Api.set_error_data h e p).error_dict = .dict
        [("success", .bool false),
         ("title", .str "Something went wrong."),
         ("message", .str "Please contact system administrator."),
         ("errors", .none)]) := by
  constructor
  · intro p e hv he
    exact get_error_data_invalid_nonhre p e hv he
  · intro h p e hv he
    exact api_set_error_data_invalid_nonhre h e p hv he

/-- Witness for C5 on the concrete example used in the tests payload with `None` title
and message (invalid for `views/view.py`). -/
theorem C5_default_substitution_witness :
    View.get_error_data (.otherError "X")
        (.dict [("title", .none), ("message", .none)]) =
      .ok (.dict [("title", .str "Error"),
        ("message", .str "Unable to process request."), ("errors", .none)]) :=
  C5_default_substitution.1 (.dict [("title", .none), ("message", .none)])
    (.otherError "X") rfl rfl

/-- Counterexample to C6: calling `raise_error` with `errors=None` (its
Python default) stores the empty list, not the given value `None`, into
`error_dict["errors"]` — so the field is not set "to the given value". -/
theorem C6_counterexample :
    assocLookup (View.raise_error_defaults View.initialHandler).1.error_dict
        "errors" = some (.list []) ∧
    PyVal.list [] ≠ PyVal.none := by
  refine ⟨rfl, ?_⟩
  intro hh
  exact PyVal.noConfusion hh

/-- C6 amended: `raise_error` (both files) sets the handler status to the
given status, `error_dict` title and message to the given strings, and
`error_dict` errors to the given list when that list is non-empty and to the
empty list when it is `None` or empty; it then unconditionally raises
`HumanReadableError` carrying the message (modelled as the returned
exception; the `views/api.py` variant also sets a `description` field).  In
particular `raise_error(title="Forbidden", message="Unauthorized",
status=403, errors=["x"])` leaves status 403 and title "Forbidden". -/
theorem C6_raise_error :
    (∀ (h : View.Handler) (t m : String) (s : Int)
        (errs : Option (List PyVal)),
      (View.raise_error h t m s errs).1.status = s ∧
      assocLookup (View.raise_error h t m s errs).1.error_dict "title" =
        some (.str t) ∧
      assocLookup (View.raise_error h t m s errs).1.error_dict "message" =
        some (.str m) ∧
      assocLookup (View.raise_error h t m s errs).1.error_dict "errors" =
        some (.list (match errs with
          | some es2 => if es2.isEmpty then [] else es2
          | Option.none => [])) ∧
      (View.raise_error h t m s errs).2 = .humanReadableError m) ∧
    (∀ (h : Api.Handler) (es : List (String × PyVal)) (t m : String)
        (s : Int) (errs : Option (List PyVal)),
      h.error_dict = .dict es →
      ∃ h2, Api.raise_error h m t s errs = .ok (h2, .humanReadableError m) ∧
        h2.status = s ∧
        pyField h2.error_dict "title" = .str t ∧
        pyField h2.error_dict "message" = .str m ∧
        pyField h2.error_dict "errors" = .list (match errs with
          | some es2 => if es2.isEmpty then [] else es2
          | Option.none => [])) ∧
    ((View.raise_error View.initialHandler "Forbidden" "Unauthorized" 403
        (some [.str "x"])).1.status = 403 ∧
      assocLookup (View.raise_error View.initialHandler "Forbidden"
          "Unauthorized" 403 (some [.str "x"])).1.error_dict "title" =
        some (.str "Forbidden") ∧
      assocLookup (View.raise_error View.initialHandler "Forbidden"
          "Unauthorized" 403 (some [.str "x"])).1.error_dict "errors" =
        some (.list [.str "x"])) := by
  refine ⟨?_, ?_, rfl, rfl, rfl⟩
  · intro h t m s errs
    refine ⟨rfl, ?_, ?_, ?_, rfl⟩
    · simp only [View.raise_error]
      rw [assocLookup_assocSet_ne _ _ _ _ (by decide),
        assocLookup_assocSet_ne _ _ _ _ (by decide),
        assocLookup_assocSet_self]
    · simp only [View.raise_error]
      rw [assocLookup_assocSet_ne _ _ _ _ (by decide),
        assocLookup_assocSet_self]
    · simp only [View.raise_error]
      rw [assocLookup_assocSet_self]
      cases errs <;> rfl
  · intro h es t m s errs hed
    refine ⟨⟨s, .dict (assocSet (assocSet (assocSet (assocSet es "title"
        (.str t)) "message" (.str m)) "description" (.str m)) "errors"
        (.list (listOrElse errs []))), h.CONTENT_TYPE⟩, ?_, rfl, ?_, ?_, ?_⟩
    · simp [Api.raise_error, hed, pySetItem, Bind.bind, Except.bind,
        Pure.pure, Except.pure]
    · simp only [pyField]
      rw [assocLookup_assocSet_ne _ _ _ _ (by decide),
        assocLookup_assocSet_ne _ _ _ _ (by decide),
        assocLookup_assocSet_ne _ _ _ _ (by decide),
        assocLookup_assocSet_self]
      rfl
    · simp only [pyField]
      rw [assocLookup_assocSet_ne _ _ _ _ (by decide),
        assocLookup_assocSet_ne _ _ _ _ (by decide),
        assocLookup_assocSet_self]
      rfl
    · simp only [pyField]
      rw [assocLookup_assocSet_self]
      rfl

/-- Witness for C6 on the concrete Forbidden example. -/
theorem C6_raise_error_witness :
    ∃ h2, Api.raise_error Api.initialHandler "Unauthorized" "Forbidden" 403
        (some [.str "x"]) = .ok (h2, .humanReadableError "Unauthorized") ∧
      h2.status = 403 ∧
      pyField h2.error_dict "title" = .str "Forbidden" ∧
      pyField h2.error_dict "message" = .str "Unauthorized" ∧
      pyField h2.error_dict "errors" = .list (match some [PyVal.str "x"] with
        | some es2 => if es2.isEmpty then [] else es2
        | Option.none => []) :=
  C6_raise_error.2.1 Api.initialHandler
    [("success", .bool false),
     ("title", .str "Something went wrong."),
     ("message", .str "Please contact system administrator."),
     ("errors", .none)]
    "Forbidden" "Unauthorized" 403 (some [.str "x"]) rfl

/-- Counterexample to C7: when the caller supplies the (empty) errors list,
`server_error_response` of `views/view.py` does not store that supplied list
but the single-element list containing `str(exception)` — Python truthiness
treats the empty list like `None`. -/
theorem C7_counterexample :
    assocLookup (View.server_error_response View.initialHandler
        (.otherError "boom") "Server Error" "Please contact developer." 500
        (some [])).1.error_dict "errors" = some (.list [.str "boom"]) ∧
    PyVal.list [.str "boom"] ≠ PyVal.list [] := by
  refine ⟨rfl, ?_⟩
  intro hh
  injection hh with h2
  exact List.noConfusion h2

/-- C7 amended: `server_error_response` of `views/view.py` sets the payload
field `errors` to the caller-supplied list when that list is non-empty, and
otherwise (absent or empty) to a single-element list containing
`str(exception)`; it sets title and message as given, commits the given
status, and delegates to `error_response` with the updated `error_dict` and
status; its Python defaults are title "Server Error", message "Please
contact developer.", status 500.  The `views/api.py` variant instead stores
the bare string `str(exception)` when the errors argument is falsy, and its
defaults are message "Please contact system administrator.", title
"Something went wrong.", status 500. -/
theorem C7_server_error :
    (∀ (h : View.Handler) (e : PyExc) (t m : String) (s : Int)
        (errs : Option (List PyVal)),
      (View.server_error_response h e t m s errs).1.status = s ∧
      assocLookup (View.server_error_response h e t m s errs).1.error_dict
        "title" = some (.str t) ∧
      assocLookup (View.server_error_response h e t m s errs).1.error_dict
        "message" = some (.str m) ∧
      assocLookup (View.server_error_response h e t m s errs).1.error_dict
        "errors" = some (.list (match errs with
          | some es2 => if es2.isEmpty then [.str (pyStr e)] else es2
          | Option.none => [.str (pyStr e)])) ∧
      (View.server_error_response h e t m s errs).2 =
        View.error_response (View.server_error_response h e t m s errs).1 e
          (some (.dict
            (View.server_error_response h e t m s errs).1.error_dict))
          (some s) Option.none) ∧
    (∀ (h : View.Handler) (e : PyExc),
      View.server_error_response_defaults h e =
        View.server_error_response h e "Server Error"
          "Please contact developer." 500 Option.none) ∧
    (∀ (h : Api.Handler) (es : List (String × PyVal)) (e : PyExc)
        (t m : String) (s : Int) (errs : Option (List PyVal)),
      h.error_dict = .dict es →
      ∃ h2 r, Api.server_error_response h e m t s errs = .ok (h2, r) ∧
        r.status = s ∧
        pyField r.data "title" = .str t ∧
        pyField r.data "errors" = (match errs with
          | some es2 => if es2.isEmpty then .str (pyStr e) else .list es2
          | Option.none => .str (pyStr e))) ∧
    (∀ (h : Api.Handler) (e : PyExc),
      Api.server_error_response_defaults h e =
        Api.server_error_response h e "Please contact system administrator."
          "Something went wrong." 500 Option.none) := by
  refine ⟨?_, fun h e => rfl, ?_, fun h e => rfl⟩
  · intro h e t m s errs
    refine ⟨rfl, ?_, ?_, ?_, rfl⟩
    · simp only [View.server_error_response]
      rw [assocLookup_assocSet_ne _ _ _ _ (by decide),
        assocLookup_assocSet_ne _ _ _ _ (by decide),
        assocLookup_assocSet_self]
    · simp only [View.server_error_response]
      rw [assocLookup_assocSet_ne _ _ _ _ (by decide),
        assocLookup_assocSet_self]
    · simp only [View.server_error_response]
      rw [assocLookup_assocSet_self]
      cases errs <;> rfl
  · intro h es e t m s errs hed
    have hval := api_valid_after_sets es (.str t) (.str m)
      (.str "Something went wrong. Please contact system administrator.")
      (Api.errorsOrStr errs e)
    refine ⟨_, _, api_server_error_response_eq h es _ e t m s errs hed rfl,
      rfl, ?_, ?_⟩
    · simp only [Api.error_response, hval]
      rw [api_set_error_data_valid_field _ _ _ _ hval (by decide) (by decide)]
      simp only [pyField]
      rw [assocLookup_assocSet_ne _ _ _ _ (by decide),
        assocLookup_assocSet_ne _ _ _ _ (by decide),
        assocLookup_assocSet_ne _ _ _ _ (by decide),
        assocLookup_assocSet_self]
      rfl
    · simp only [Api.error_response, hval]
      rw [api_set_error_data_valid_field _ _ _ _ hval (by decide) (by decide)]
      simp only [pyField]
      rw [assocLookup_assocSet_self]
      cases errs <;> rfl

/-- Witness for C7 on the api variant at concrete inputs, exhibiting the bare
string stored in the errors field. -/
theorem C7_server_error_witness :
    ∃ h2 r, Api.server_error_response Api.initialHandler (.otherError "boom")
        "Please contact system administrator." "Something went wrong." 500
        Option.none = .ok (h2, r) ∧
      r.status = 500 ∧
      pyField r.data "title" = .str "Something went wrong." ∧
      pyField r.data "errors" = (match (Option.none : Option (List PyVal)) with
        | some es2 => if es2.isEmpty then .str (pyStr (.otherError "boom"))
            else .list es2
        | Option.none => .str (pyStr (.otherError "boom"))) :=
  C7_server_error.2.2.1 Api.initialHandler
    [("success", .bool false),
     ("title", .str "Something went wrong."),
     ("message", .str "Please contact system administrator."),
     ("errors", .none)]
    (.otherError "boom") "Something went wrong."
    "Please contact system administrator." 500 Option.none rfl

theorem error_response_none_none_hre (h : View.Handler) (m : String)
    (hval : View.is_valid_error_dict (.dict h.error_dict) = .ok true) :
    View.error_response h (.humanReadableError m) Option.none Option.none
        Option.none =
      .ok (View.get_response (.dict (assocSet h.error_dict "message"
        (.str m))) (View.get_error_status_code h.status h.status)
        h.CONTENT_TYPE) := by
  simp [View.error_response, get_error_data_valid_hre h.error_dict m hval,
    Bind.bind, Except.bind, Pure.pure, Except.pure, View.get_content_type]

theorem get_error_status_code_self (s : Int) (h1 : 400 ≤ s) (h2 : s ≤ 599) :
    View.get_error_status_code s s = s := by
  have hv : is_valid_error_code s = true := (valid_error_code_iff s).mpr ⟨h1, h2⟩
  simp [View.get_error_status_code, hv]

/-- C9: `error_response` of `views/view.py` uses the `error_dict` of the handler
as candidate payload when `error_data` is `None` and the `status` of the handler
as requested status when `status` is `None`; consequently, after
`raise_error(t, m, s, errors)` with an error-range status `s`, calling
`error_response` on the raised exception with no payload and no status
returns a response carrying title `t`, message `m`, the stored errors list
and status `s`. -/
theorem C9_defaults_surface_state :
    (∀ (h : View.Handler) (e : PyExc) (st : Option Int) (ct : Option String),
      View.error_response h e Option.none st ct =
        View.error_response h e (some (.dict h.error_dict)) st ct) ∧
    (∀ (h : View.Handler) (e : PyExc) (ed : Option PyVal)
        (ct : Option String),
      View.error_response h e ed Option.none ct =
        View.error_response h e ed (some h.status) ct) ∧
    (∀ (h : View.Handler) (t m : String) (s : Int)
        (errs : Option (List PyVal)),
      400 ≤ s → s ≤ 599 →
      ∃ r, View.error_response (View.raise_error h t m s errs).1
          (View.raise_error h t m s errs).2 Option.none Option.none
          Option.none = .ok r ∧
        r.status = s ∧
        pyField r.data "title" = .str t ∧
        pyField r.data "message" = .str m ∧
        pyField r.data "errors" = .list (match errs with
          | some es2 => if es2.isEmpty then [] else es2
          | Option.none => [])) := by
  refine ⟨fun h e st ct => rfl, fun h e ed ct => rfl, ?_⟩
  intro h t m s errs h1 h2
  have hval : View.is_valid_error_dict
      (.dict (View.raise_error h t m s errs).1.error_dict) = .ok true := by
    apply (is_valid_error_dict_true_iff _).mpr
    refine ⟨_, rfl, ?_, ?_⟩
    · simp only [View.raise_error]
      rw [assocLookup_assocSet_ne _ _ _ _ (by decide),
        assocLookup_assocSet_ne _ _ _ _ (by decide),
        assocLookup_assocSet_self]
      rfl
    · simp only [View.raise_error]
      rw [assocLookup_assocSet_ne _ _ _ _ (by decide),
        assocLookup_assocSet_self]
      rfl
  refine ⟨_, error_response_none_none_hre (View.raise_error h t m s errs).1
    m hval, ?_, ?_, ?_, ?_⟩
  · exact get_error_status_code_self s h1 h2
  · simp only [View.get_response, pyField, View.raise_error]
    rw [assocLookup_assocSet_ne _ _ _ _ (by decide),
      assocLookup_assocSet_ne _ _ _ _ (by decide),
      assocLookup_assocSet_ne _ _ _ _ (by decide),
      assocLookup_assocSet_self]
    rfl
  · simp only [View.get_response, pyField, View.raise_error]
    rw [assocLookup_assocSet_self]
    rfl
  · simp only [View.get_response, pyField, View.raise_error]
    rw [assocLookup_assocSet_ne _ _ _ _ (by decide),
      assocLookup_assocSet_self]
    cases errs <;> rfl

/-- Witness for C9 on a concrete raise_error followed by a no-argument
error_response. -/
theorem C9_defaults_surface_state_witness :
    ∃ r, View.error_response (View.raise_error View.initialHandler
        "Forbidden" "Unauthorized" 403 (some [.str "x"])).1
        (View.raise_error View.initialHandler "Forbidden" "Unauthorized" 403
          (some [.str "x"])).2 Option.none Option.none Option.none =
        .ok r ∧
      r.status = 403 ∧
      pyField r.data "title" = .str "Forbidden" ∧
      pyField r.data "message" = .str "Unauthorized" ∧
      pyField r.data "errors" = .list (match some [PyVal.str "x"] with
        | some es2 => if es2.isEmpty then [] else es2
        | Option.none => []) :=
  C9_defaults_surface_state.2.2 View.initialHandler "Forbidden"
    "Unauthorized" 403 (some [.str "x"]) (by decide) (by decide)

theorem store_read_write_self (st : ViewHeap.Store) (a : Nat)
    (d : List (String × PyVal)) : (st.write a d).read a = d := by
  simp [ViewHeap.Store.read, ViewHeap.Store.write]

theorem heap_get_error_data_addr (st : ViewHeap.Store) (e : PyExc) (a : Nat)
    (hval : View.is_valid_error_dict (.dict (st.read a)) = .ok true) :
    (ViewHeap.get_error_data st e a).2 = a := by
  cases he : is_error_human_readable e <;>
    simp [ViewHeap.get_error_data, hval, he]

theorem heap_get_error_data_read (st : ViewHeap.Store) (e : PyExc) (a : Nat)
    (hval : View.is_valid_error_dict (.dict (st.read a)) = .ok true) :
    (ViewHeap.get_error_data st e a).1.read a =
      (if is_error_human_readable e then
        assocSet (st.read a) "message" (.str (pyStr e))
      else st.read a) := by
  cases he : is_error_human_readable e <;>
    · simp only [ViewHeap.get_error_data]
      rw [hval]
      simp [he, ViewHeap.Store.read, ViewHeap.Store.write]

theorem heap_get_error_data_class (st : ViewHeap.Store) (e : PyExc)
    (a : Nat) :
    (ViewHeap.get_error_data st e a).1.classErrorDict = st.classErrorDict := by
  unfold ViewHeap.get_error_data
  rcases hv : View.is_valid_error_dict (.dict (st.read a)) with msg | b
  · cases he : is_error_human_readable e <;>
      simp [hv, he, ViewHeap.Store.write, ViewHeap.Store.alloc]
  · cases b <;> cases he : is_error_human_readable e <;>
      simp [hv, he, ViewHeap.Store.write, ViewHeap.Store.alloc]

/-- C10: `error_dict` of `DjangoViewAPIMixin` is a class attribute holding one
mutable dict object.  Two handler instances that never assigned their own
`error_dict` resolve the attribute to the same shared object; `raise_error`
and `server_error_response` on one instance mutate that object in place (no
rebinding), so the other instance observes the new fields; and
`get_error_data` hands back the very dict object it was given when the
payload is valid, mutating it in place on the human-readable branch.
Concretely, after `raise_error(..., title="Forbidden", ...)` on one fresh
instance, a second fresh instance reads title "Forbidden" where it read
"Error" before. -/
theorem C10_shared_mutable_error_dict :
    (∀ (st : ViewHeap.Store) (o1 o2 : ViewHeap.Obj),
      o1.ownErrorDict = Option.none → o2.ownErrorDict = Option.none →
      ViewHeap.errorDictAddr st o1 = ViewHeap.errorDictAddr st o2) ∧
    (∀ (st : ViewHeap.Store) (o1 o2 : ViewHeap.Obj) (t m : String) (s : Int)
        (errs : Option (List PyVal)),
      o1.ownErrorDict = Option.none → o2.ownErrorDict = Option.none →
      assocLookup
        ((ViewHeap.raise_error st o1 t m s errs).1.1.read
          (ViewHeap.errorDictAddr (ViewHeap.raise_error st o1 t m s errs).1.1
            o2)) "title" = some (.str t)) ∧
    (∀ (st : ViewHeap.Store) (o1 : ViewHeap.Obj) (e : PyExc) (t m : String)
        (s : Int) (errs : Option (List PyVal)),
      o1.ownErrorDict = Option.none →
      (ViewHeap.server_error_response st o1 e t m s errs).1.1.classErrorDict =
          st.classErrorDict ∧
      (ViewHeap.server_error_response st o1 e t m s errs).2.1 =
          st.classErrorDict ∧
      assocLookup
        ((ViewHeap.server_error_response st o1 e t m s errs).1.1.read
          st.classErrorDict) "title" = some (.str t)) ∧
    (∀ (st : ViewHeap.Store) (e : PyExc) (a : Nat),
      View.is_valid_error_dict (.dict (st.read a)) = .ok true →
      (ViewHeap.get_error_data st e a).2 = a) ∧
    (∀ (st : ViewHeap.Store) (a : Nat) (msg : String),
      View.is_valid_error_dict (.dict (st.read a)) = .ok true →
      (ViewHeap.get_error_data st (.humanReadableError msg) a).1.read a =
        assocSet (st.read a) "message" (.str msg)) ∧
    (assocLookup (ViewHeap.initStore.read
        (ViewHeap.errorDictAddr ViewHeap.initStore ViewHeap.newInstance))
      "title" = some (.str "Error")) ∧
    (assocLookup
      ((ViewHeap.raise_error ViewHeap.initStore ViewHeap.newInstance
          "Forbidden" "Unauthorized" 403 Option.none).1.1.read
        (ViewHeap.errorDictAddr
          (ViewHeap.raise_error ViewHeap.initStore ViewHeap.newInstance
            "Forbidden" "Unauthorized" 403 Option.none).1.1
          ViewHeap.newInstance)) "title" = some (.str "Forbidden")) := by
  refine ⟨?_, ?_, ?_, heap_get_error_data_addr, ?_, rfl, rfl⟩
  · intro st o1 o2 h1 h2
    simp [ViewHeap.errorDictAddr, h1, h2]
  · intro st o1 o2 t m s errs h1 h2
    simp [ViewHeap.raise_error, ViewHeap.errorDictAddr, h1, h2,
      ViewHeap.Store.read, ViewHeap.Store.write]
    rw [assocLookup_assocSet_ne _ _ _ _ (by decide),
      assocLookup_assocSet_ne _ _ _ _ (by decide),
      assocLookup_assocSet_self]
  · intro st o1 e t m s errs h1
    simp only [ViewHeap.server_error_response, ViewHeap.error_response,
      ViewHeap.errorDictAddr, h1]
    have hread : (st.write st.classErrorDict
        (assocSet (assocSet (assocSet (st.read st.classErrorDict) "title"
          (.str t)) "message" (.str m)) "errors"
          (.list (listOrElse errs [.str (pyStr e)])))).read
        st.classErrorDict =
        assocSet (assocSet (assocSet (st.read st.classErrorDict) "title"
          (.str t)) "message" (.str m)) "errors"
          (.list (listOrElse errs [.str (pyStr e)])) :=
      store_read_write_self _ _ _
    have hval : View.is_valid_error_dict (.dict ((st.write st.classErrorDict
        (assocSet (assocSet (assocSet (st.read st.classErrorDict) "title"
          (.str t)) "message" (.str m)) "errors"
          (.list (listOrElse errs [.str (pyStr e)])))).read
        st.classErrorDict)) = .ok true := by
      rw [hread]
      apply (is_valid_error_dict_true_iff _).mpr
      refine ⟨_, rfl, ?_, ?_⟩
      · rw [assocLookup_assocSet_ne _ _ _ _ (by decide),
          assocLookup_assocSet_ne _ _ _ _ (by decide),
          assocLookup_assocSet_self]
        rfl
      · rw [assocLookup_assocSet_ne _ _ _ _ (by decide),
          assocLookup_assocSet_self]
        rfl
    refine ⟨?_, ?_, ?_⟩
    · exact heap_get_error_data_class _ e _
    · exact heap_get_error_data_addr _ e _ hval
    · rw [heap_get_error_data_read _ e _ hval, hread]
      cases he : is_error_human_readable e
      · rw [if_neg (by simp [he])]
        rw [assocLookup_assocSet_ne _ _ _ _ (by decide),
          assocLookup_assocSet_ne _ _ _ _ (by decide),
          assocLookup_assocSet_self]
      · rw [if_pos rfl]
        rw [assocLookup_assocSet_ne _ _ _ _ (by decide),
          assocLookup_assocSet_ne _ _ _ _ (by decide),
          assocLookup_assocSet_ne _ _ _ _ (by decide),
          assocLookup_assocSet_self]
  · intro st a msg hval
    rw [heap_get_error_data_read st (.humanReadableError msg) a hval]
    simp [is_error_human_readable, pyStr]

/-- Witness for C10: in the initial store, two fresh instances share the
class dict, and raising on the first is observed by the second. -/
theorem C10_shared_mutable_error_dict_witness :
    assocLookup
      ((ViewHeap.raise_error ViewHeap.initStore ViewHeap.newInstance
          "Forbidden" "Unauthorized" 403 Option.none).1.1.read
        (ViewHeap.errorDictAddr
          (ViewHeap.raise_error ViewHeap.initStore ViewHeap.newInstance
            "Forbidden" "Unauthorized" 403 Option.none).1.1
          ViewHeap.newInstance)) "title" = some (.str "Forbidden") :=
  C10_shared_mutable_error_dict.2.1 ViewHeap.initStore ViewHeap.newInstance
    ViewHeap.newInstance "Forbidden" "Unauthorized" 403 Option.none rfl rfl
